import Mathlib

/-!
Verification of the kb-layout-daemon input-capture core.

Shallow embedding of `src/main.rs` of `kb-layout-daemon`: the keyboard
matcher, the mode-control interface, the layout-switch operations and the
per-device monitor loop, together with theorems settling the specification
claims about them.

Conventions of the embedding:
* Rust `u16`/`u32` values (key codes, layout indices) become `Nat`;
  the event `value` field (`i32`) becomes `Int`.
* The D-Bus world is passed in explicitly: the response of one
  `setLayout` call is an `Option Bool` (`none` models a zbus transport
  error, `some b` the boolean the service returned), and the sequence of
  `getLayout` responses observed during the bounded confirmation window
  is a `List (Option Nat)`.
* The process-global atomics `GRAB_MODE` and `CURRENT_LAYOUT` are
  threaded through as explicit state of the single monitor under study.
* `HashSet<u16>` becomes `Finset Nat`; only its set semantics matter.
-/

namespace KbDaemon

/-! ## Strings: lowercasing and substring search

Models Rust `str::to_lowercase` (restricted to the ASCII range, which is
all the daemon's configured patterns and mode strings use) and
`str::contains`. -/

/-- Rust `str::to_lowercase`: lowercase every character (ASCII range). -/
def strToLower (s : String) : String := ⟨s.data.map Char.toLower⟩

/-- Whether `pat` occurs literally at the head of a character list. -/
def headMatch : List Char → List Char → Bool
  | [], _ => true
  | _ :: _, [] => false
  | a :: as, b :: bs => a == b && headMatch as bs

/-- Rust `str::contains`: `pat` occurs contiguously somewhere in
`haystack` (the empty pattern matches everywhere, as in Rust). -/
def containsSub (pat : List Char) : List Char → Bool
  | [] => pat.isEmpty
  | c :: rest => headMatch pat (c :: rest) || containsSub pat rest

/-! ## Configuration and the matcher (main.rs lines 30-35, 67-77) -/

/-- Mirror of `KeyboardConfig` (main.rs lines 30-35). -/
structure KeyboardConfig where
  name : String
  layout_index : Nat
  layout_name : String
deriving DecidableEq, Repr

/-- What `match_keyboard_config` reads off an `evdev::Device`:
`device.name().unwrap_or("Unknown")` and
`device.supported_events().contains(EventType::KEY)`. -/
structure DeviceInfo where
  name : String
  supportsKey : Bool
deriving DecidableEq, Repr

/-- The per-config test of main.rs line 75:
`name.to_lowercase().contains(&kb.name.to_lowercase())`. -/
def nameMatches (deviceName : String) (kb : KeyboardConfig) : Bool :=
  containsSub (strToLower kb.name).data (strToLower deviceName).data

/-- The matcher `match_keyboard_config` (main.rs lines 67-77): reject devices without
key capability, otherwise first configured pattern that matches. -/
def match_keyboard_config (device : DeviceInfo) (configs : List KeyboardConfig) :
    Option KeyboardConfig :=
  if device.supportsKey = false then none
  else configs.find? (fun kb => nameMatches device.name kb)

/-! ## Mode control interface (main.rs lines 236-274)

`GRAB_MODE` is the boolean argument/result: `true` = grab,
`false` = passive, exactly as the `AtomicBool` in the source. -/

/-- Method `DaemonControl::get_mode` (lines 240-246). -/
def get_mode (grabMode : Bool) : String :=
  if grabMode then "grab" else "passive"

/-- Method `DaemonControl::set_mode` (lines 248-262). Returns
(returned bool, new `GRAB_MODE`). -/
def set_mode (mode : String) (grabMode : Bool) : Bool × Bool :=
  if strToLower mode = "passive" then (true, false)
  else if strToLower mode = "grab" then (true, true)
  else (false, grabMode)

/-- Method `DaemonControl::toggle_mode` (lines 264-273). Returns
(returned string, new `GRAB_MODE`). -/
def toggle_mode (grabMode : Bool) : String × Bool :=
  (if grabMode then "passive" else "grab", !grabMode)

/-! ## Layout switching (main.rs lines 145-192) -/

/-- Observable outcome of `switch_layout`: whether it returned `Ok`, the
value of `CURRENT_LAYOUT` afterwards, and how many `setLayout` service
calls were issued. -/
structure SwitchOutcome where
  ok : Bool
  newLayout : Nat
  serviceCalls : Nat
deriving DecidableEq, Repr

/-- Function `switch_layout` (lines 145-161). `resp` is the service's answer to the
`setLayout` call (`none` = zbus error). The call is issued
unconditionally; `CURRENT_LAYOUT` is stored only on a `true` reply. -/
def switch_layout (resp : Option Bool) (current target : Nat) : SwitchOutcome :=
  match resp with
  | some true => ⟨true, target, 1⟩
  | some false => ⟨false, current, 1⟩
  | none => ⟨false, current, 1⟩

/-- The confirmation poll of lines 179-187: scan the bounded sequence of
`getLayout` responses for one equal to the target. -/
def confirmPoll (target : Nat) (polls : List (Option Nat)) : Bool :=
  polls.any (fun p => p == some target)

/-- Observable outcome of `switch_layout_confirmed`, exposing the value of
`CURRENT_LAYOUT` at the moment the poll loop starts (`layoutBeforePoll`)
as well as at the end (`newLayout`). -/
structure ConfirmedOutcome where
  ok : Bool
  layoutBeforePoll : Nat
  newLayout : Nat
  confirmed : Bool
  serviceCalls : Nat
deriving DecidableEq, Repr

/-- Function `switch_layout_confirmed` (lines 176-192): run `switch_layout`,
propagate its error, otherwise poll; the poll loop never writes
`CURRENT_LAYOUT`, and on timeout the function still returns `Ok`. -/
def switch_layout_confirmed (resp : Option Bool) (polls : List (Option Nat))
    (current target : Nat) : ConfirmedOutcome :=
  let s := switch_layout resp current target
  if s.ok then
    ⟨true, s.newLayout, s.newLayout, confirmPoll target polls, s.serviceCalls⟩
  else
    ⟨false, s.newLayout, s.newLayout, false, s.serviceCalls⟩

/-! ## Input events and pressed-key tracking (main.rs lines 405-422) -/

/-- The discriminant of `ev.kind()` that the monitor inspects:
a key event with its code, or anything else (SYN, MSC, REL, ...). -/
inductive EvKind where
  | key (code : Nat)
  | other
deriving DecidableEq, Repr

/-- One `InputEvent`: its kind and its `value()` (1 press, 0 release,
2 repeat). -/
structure InputEvent where
  kind : EvKind
  value : Int
deriving DecidableEq, Repr

/-- The per-event update of `pressed_keys` (lines 405-422): insert on
press, erase on release, ignore everything else. -/
def updatePressed (pressed : Finset Nat) (ev : InputEvent) : Finset Nat :=
  match ev.kind with
  | EvKind.key c =>
      if ev.value = 1 then insert c pressed
      else if ev.value = 0 then pressed.erase c
      else pressed
  | EvKind.other => pressed

/-- Folding `updatePressed` over a batch, as the `for ev in &events` loop
does. -/
def replayEvents (events : List InputEvent) (pressed : Finset Nat) : Finset Nat :=
  events.foldl updatePressed pressed

/-- The `need_switch` computation of the same loop: some press event was
seen while the `CURRENT_LAYOUT` snapshot differed from this monitor's
target index. -/
def batchNeedSwitch (current layoutIndex : Nat) (events : List InputEvent) : Bool :=
  events.any (fun ev =>
    match ev.kind with
    | EvKind.key _ => (ev.value == 1) && decide (current ≠ layoutIndex)
    | EvKind.other => false)

/-- Lines 434-446 of the monitor loop: invoke `switch_layout_confirmed`
only when `need_switch` is set. Returns (`CURRENT_LAYOUT` afterwards,
number of `setLayout` calls issued). -/
def switchPhase (layoutIndex current : Nat) (events : List InputEvent)
    (resp : Option Bool) (polls : List (Option Nat)) : Nat × Nat :=
  if batchNeedSwitch current layoutIndex events then
    let o := switch_layout_confirmed resp polls current layoutIndex
    (o.newLayout, o.serviceCalls)
  else (current, 0)

/-! ## The monitor loop (main.rs lines 277-470)

One loop iteration is `monitorStep`; the world it interacts with during
that iteration is an `Env`. Virtual-device forwarding (lines 448-468)
touches none of the tracked state — a forwarding failure only recreates
the virtual device and retries once — so it contributes no fields here;
`released` records only the cleanup emission of lines 322-337. -/

/-- External interactions available to one loop iteration. -/
structure Env where
  shutdown : Bool
  grabMode : Bool
  openOk : Bool
  grabOk : Bool
  read : Sum (Option Nat) (List InputEvent)
  setLayoutResp : Option Bool
  polls : List (Option Nat)

/-- Result of `dev.fetch_events()`: an `io::Error` carrying
`raw_os_error()` on the left, a batch of events on the right. -/
abbrev ReadResult := Sum (Option Nat) (List InputEvent)

/-- The monitor's mutable locals (lines 296-299) plus the
`CURRENT_LAYOUT` cell threaded through explicitly. -/
structure MState where
  wasGrab : Bool
  deviceOpen : Bool
  pressed : Finset Nat
  current : Nat
deriving DecidableEq

/-- Whether the iteration ended with `continue`/fallthrough or `break`. -/
inductive Control where
  | cont
  | brk
deriving DecidableEq, Repr

/-- Observables of one loop iteration: successor state, loop control, the
set of key codes released by the cleanup emission, and counters for
`Device::open` attempts, `grab` attempts and `setLayout` calls. -/
structure StepOut where
  s : MState
  control : Control
  released : Finset Nat
  opens : Nat
  grabs : Nat
  serviceCalls : Nat
deriving DecidableEq

/-- Lines 320-337: release exactly the tracked pressed keys, but only when
a device is held, the previous mode was grab and the set is nonempty.
Returns (released set, pressed set afterwards). -/
def transitionCleanup (deviceOpen wasGrab : Bool) (pressed : Finset Nat) :
    Finset Nat × Finset Nat :=
  if deviceOpen && wasGrab && decide pressed.Nonempty then (pressed, ∅)
  else (∅, pressed)

/-- Lines 368-468: fetch a batch, classify errors (ENODEV 19 terminal,
EAGAIN 11 retry, others close the device for reopening), then track
pressed keys and possibly switch layout. `rel`, `opens`, `grabs` carry
what the earlier phases of this iteration already did. -/
def readPhase (layoutIndex : Nat) (st : MState) (e : Env) (rel : Finset Nat)
    (opens grabs : Nat) : StepOut :=
  match e.read with
  | Sum.inl errno =>
      if errno = some 19 then ⟨st, Control.brk, rel, opens, grabs, 0⟩
      else if errno = some 11 then ⟨st, Control.cont, rel, opens, grabs, 0⟩
      else ⟨{ st with deviceOpen := false }, Control.cont, rel, opens, grabs, 0⟩
  | Sum.inr evs =>
      if evs.isEmpty then ⟨st, Control.cont, rel, opens, grabs, 0⟩
      else
        let pressed1 := replayEvents evs st.pressed
        let r := switchPhase layoutIndex st.current evs e.setLayoutResp e.polls
        ⟨{ st with pressed := pressed1, current := r.1 }, Control.cont, rel,
          opens, grabs, r.2⟩

/-- One iteration of the `loop` of lines 301-469: shutdown check, mode
transition / (re)open, then the read-and-process phase. -/
def monitorStep (layoutIndex : Nat) (st : MState) (e : Env) : StepOut :=
  if e.shutdown then
    ⟨st, Control.brk, ∅, 0, 0, 0⟩
  else
    let isGrab := e.grabMode
    if !st.deviceOpen || (isGrab != st.wasGrab) then
      let cleanup := transitionCleanup st.deviceOpen st.wasGrab st.pressed
      if !e.openOk then
        ⟨⟨st.wasGrab, false, cleanup.2, st.current⟩, Control.cont, cleanup.1, 1, 0, 0⟩
      else if isGrab && !e.grabOk then
        ⟨⟨st.wasGrab, false, cleanup.2, st.current⟩, Control.cont, cleanup.1, 1, 1, 0⟩
      else
        readPhase layoutIndex ⟨isGrab, true, cleanup.2, st.current⟩ e cleanup.1 1
          (if isGrab then 1 else 0)
    else
      readPhase layoutIndex st e ∅ 0 0

/-- Iterate `monitorStep` over a finite environment trace, stopping on
`break`. Returns (final state, total open attempts, total grab attempts). -/
def runLoop (layoutIndex : Nat) : MState → List Env → MState × Nat × Nat
  | st, [] => (st, 0, 0)
  | st, e :: rest =>
      let o := monitorStep layoutIndex st e
      match o.control with
      | Control.brk => (o.s, o.opens, o.grabs)
      | Control.cont =>
          let r := runLoop layoutIndex o.s rest
          (r.1, o.opens + r.2.1, o.grabs + r.2.2)

/-- Observables of a whole `monitor_keyboard` invocation. -/
structure MonitorOut where
  vkCreated : Bool
  finalState : Option MState
  opens : Nat
  grabs : Nat
deriving DecidableEq

/-- Function `monitor_keyboard` (lines 277-470): create the virtual device first
(`vkOk` is whether `create_virtual_keyboard` succeeded); on failure return
at once, before any device is opened; otherwise run the loop from
`device = None`, empty pressed set and the startup `GRAB_MODE`. -/
def monitor_keyboard (vkOk grabAtStart : Bool) (layoutIndex initialLayout : Nat)
    (envs : List Env) : MonitorOut :=
  if vkOk then
    let r := runLoop layoutIndex ⟨grabAtStart, false, ∅, initialLayout⟩ envs
    ⟨true, some r.1, r.2.1, r.2.2⟩
  else ⟨false, none, 0, 0⟩

/-- Function `spawn_keyboard_monitor` (lines 473-502), restricted to its registry
logic: device paths are abstracted to `Nat`; an already-registered path
spawns nothing. Returns (new registry, whether a monitor was spawned). -/
def spawn_keyboard_monitor (registry : Finset Nat) (path : Nat) :
    Finset Nat × Bool :=
  if path ∈ registry then (registry, false)
  else (insert path registry, true)

/-! ## Auxiliary notions for stating the claims -/

/-- The most recent press/release (`value ∈ {1, 0}`) event for key code
`c` in a batch history, if any; repeat and non-key events are invisible
to it. -/
def lastPressRelease (events : List InputEvent) (c : Nat) : Option Int :=
  ((events.filter (fun ev =>
      (ev.kind == EvKind.key c) && (ev.value == 1 || ev.value == 0))).getLast?).map
    InputEvent.value

/-! ## Helper lemmas -/

/-- Every run of `switch_layout_confirmed` issues exactly one `setLayout` call:
the de-duplication of the spec's `switch_to` step 1 is nowhere inside it. -/
theorem switch_layout_confirmed_calls (resp : Option Bool)
    (polls : List (Option Nat)) (current target : Nat) :
    (switch_layout_confirmed resp polls current target).serviceCalls = 1 := by
  rcases resp with _ | b
  · rfl
  · cases b <;> rfl

/-- A batch whose monitor's target index equals the `CURRENT_LAYOUT`
snapshot never sets `need_switch`. -/
theorem batchNeedSwitch_self (l : Nat) (evs : List InputEvent) :
    batchNeedSwitch l l evs = false := by
  unfold batchNeedSwitch
  rw [List.any_eq_false]
  intro ev _
  cases h : ev.kind <;> simp [h]

/-! ## Claim C1 — de-duplication of layout-switch requests -/

/-- C1, counterexample: the claim says that calling
`switch_layout` with `target = Current Layout` is a no-op that issues no
service request, and that two calls in a row issue at most one request.
On the code, `switch_layout` issues its `setLayout` call unconditionally:
with `target = current = 0` one call issues one request and two calls in
a row issue two. -/
theorem switch_layout_calls_service_when_target_equals_current :
    (switch_layout (some true) 0 0).serviceCalls = 1 ∧
    (switch_layout (some true) 0 0).serviceCalls +
      (switch_layout (some true) (switch_layout (some true) 0 0).newLayout
        0).serviceCalls = 2 := by
  decide

/-- C1, amended: the de-duplication lives in the Device Monitor, not in
`switch_layout`: the monitor invokes `switch_layout_confirmed` only when a
press arrives while `CURRENT_LAYOUT` differs from its target
(`batchNeedSwitch`). At that level the claim holds: a batch whose target
equals `CURRENT_LAYOUT` issues zero `setLayout` calls, and two successive
switch decisions for the same target, with no external change of
`CURRENT_LAYOUT` in between and the first issued call (if any) reported
successful, issue at most one `setLayout` call in total. -/
theorem monitor_dedup_at_most_one_call (layoutIndex current : Nat)
    (evs1 evs2 : List InputEvent) (resp1 resp2 : Option Bool)
    (polls1 polls2 : List (Option Nat)) (h1 : resp1 = some true) :
    switchPhase layoutIndex layoutIndex evs1 resp1 polls1 = (layoutIndex, 0) ∧
    (switchPhase layoutIndex current evs1 resp1 polls1).2 +
      (switchPhase layoutIndex (switchPhase layoutIndex current evs1 resp1 polls1).1
        evs2 resp2 polls2).2 ≤ 1 := by
  constructor
  · simp [switchPhase, batchNeedSwitch_self]
  · subst h1
    cases hb : batchNeedSwitch current layoutIndex evs1 with
    | false =>
        have hfirst : switchPhase layoutIndex current evs1 (some true) polls1 =
            (current, 0) := by
          simp [switchPhase, hb]
        rw [hfirst]
        simp only [Nat.zero_add]
        cases hb2 : batchNeedSwitch current layoutIndex evs2 with
        | false => simp [switchPhase, hb2]
        | true => simp [switchPhase, hb2, switch_layout_confirmed_calls]
    | true =>
        have hfirst : switchPhase layoutIndex current evs1 (some true) polls1 =
            (layoutIndex, 1) := by
          simp [switchPhase, hb, switch_layout_confirmed, switch_layout]
        rw [hfirst]
        simp [switchPhase, batchNeedSwitch_self]

/-- Witness for `monitor_dedup_at_most_one_call` at a concrete input. -/
theorem monitor_dedup_at_most_one_call_witness :
    switchPhase 1 1 [⟨EvKind.key 30, 1⟩] (some true) [] = (1, 0) ∧
    (switchPhase 1 0 [⟨EvKind.key 30, 1⟩] (some true) []).2 +
      (switchPhase 1 (switchPhase 1 0 [⟨EvKind.key 30, 1⟩] (some true) []).1
        [⟨EvKind.key 30, 1⟩] (some true) []).2 ≤ 1 :=
  monitor_dedup_at_most_one_call 1 0 [⟨EvKind.key 30, 1⟩] [⟨EvKind.key 30, 1⟩]
    (some true) (some true) [] [] rfl

/-! ## Claim C4 — service failure leaves Current Layout unchanged -/

/-- C4: when the service's `setLayout` call returns `false`,
`switch_layout` returns an error and `CURRENT_LAYOUT` keeps its prior
value; `switch_layout_confirmed` propagates both. -/
theorem set_layout_failure_leaves_current_layout (current target : Nat)
    (polls : List (Option Nat)) :
    (switch_layout (some false) current target).ok = false ∧
    (switch_layout (some false) current target).newLayout = current ∧
    (switch_layout_confirmed (some false) polls current target).ok = false ∧
    (switch_layout_confirmed (some false) polls current target).newLayout = current :=
  ⟨rfl, rfl, rfl, rfl⟩

/-! ## Claim C5 — when Current Layout is mutated -/

/-- C5, counterexample: the claim says the Current Layout cell is not
updated to the target before the confirmation poll observes the target or
the timeout elapses. Concretely, with a successful `setLayout` and a poll
sequence that never reports the target, the cell already holds the target
when polling starts. -/
theorem layout_updated_before_confirmation_poll :
    (switch_layout_confirmed (some true) [some 0] 0 1).layoutBeforePoll = 1 ∧
    (switch_layout_confirmed (some true) [some 0] 0 1).confirmed = false := by
  decide

/-- C5, amended: `CURRENT_LAYOUT` is updated to the target as soon as the
`setLayout` call reports success — inside `switch_layout`, before any
confirmation polling; the poll loop never modifies the cell (the final
value always equals the pre-poll value), on timeout the operation still
returns success, and on a failed set call the cell is unchanged. -/
theorem current_layout_follows_set_call_not_poll (resp : Option Bool)
    (polls : List (Option Nat)) (current target : Nat) :
    (resp = some true →
      (switch_layout_confirmed resp polls current target).layoutBeforePoll = target ∧
      (switch_layout_confirmed resp polls current target).newLayout = target ∧
      (switch_layout_confirmed resp polls current target).ok = true) ∧
    (resp ≠ some true →
      (switch_layout_confirmed resp polls current target).ok = false ∧
      (switch_layout_confirmed resp polls current target).newLayout = current) ∧
    (switch_layout_confirmed resp polls current target).newLayout =
      (switch_layout_confirmed resp polls current target).layoutBeforePoll := by
  rcases resp with _ | b
  · exact ⟨fun h => by simp at h, fun _ => ⟨rfl, rfl⟩, rfl⟩
  · cases b
    · exact ⟨fun h => by simp at h, fun _ => ⟨rfl, rfl⟩, rfl⟩
    · exact ⟨fun _ => ⟨rfl, rfl, rfl⟩, fun h => absurd rfl h, rfl⟩

/-- Witness for `current_layout_follows_set_call_not_poll`. -/
theorem current_layout_follows_set_call_not_poll_witness :
    (switch_layout_confirmed (some true) [] 0 1).layoutBeforePoll = 1 ∧
    (switch_layout_confirmed (some false) [] 0 1).ok = false :=
  ⟨((current_layout_follows_set_call_not_poll (some true) [] 0 1).1 rfl).1,
   ((current_layout_follows_set_call_not_poll (some false) [] 0 1).2.1
      (by decide)).1⟩

/-! ## Claim C8 — set_mode recognizes exactly the two mode strings -/

/-- C8: `set_mode` returns `true` iff its argument lowercases to a
recognized mode value; on an unrecognized string it returns `false` and
leaves `GRAB_MODE` unchanged; `set_mode("bogus")` is such a string; and
after `set_mode("passive")` a `get_mode` returns `"passive"`. -/
theorem set_mode_recognized_and_scenarios (m : String) (g : Bool) :
    ((set_mode m g).1 = true ↔ (strToLower m = "passive" ∨ strToLower m = "grab")) ∧
    ((set_mode m g).1 = false → (set_mode m g).2 = g) ∧
    set_mode "bogus" g = (false, g) ∧
    get_mode (set_mode "passive" g).2 = "passive" := by
  refine ⟨?_, ?_, ?_, ?_⟩
  · by_cases h1 : strToLower m = "passive"
    · simp [set_mode, h1]
    · by_cases h2 : strToLower m = "grab"
      · simp [set_mode, h1, h2]
      · simp [set_mode, h1, h2]
  · intro h
    by_cases h1 : strToLower m = "passive"
    · simp [set_mode, h1] at h
    · by_cases h2 : strToLower m = "grab"
      · simp [set_mode, h1, h2] at h
      · simp [set_mode, h1, h2]
  · have h1 : strToLower "bogus" ≠ "passive" := by decide
    have h2 : strToLower "bogus" ≠ "grab" := by decide
    simp [set_mode, h1, h2]
  · have h1 : strToLower "passive" = "passive" := by decide
    simp [set_mode, h1, get_mode]

/-- Witness for `set_mode_recognized_and_scenarios`. -/
theorem set_mode_recognized_and_scenarios_witness :
    (set_mode "bogus" true).2 = true ∧ set_mode "bogus" true = (false, true) :=
  ⟨(set_mode_recognized_and_scenarios "bogus" true).2.1 (by decide),
   (set_mode_recognized_and_scenarios "bogus" true).2.2.1⟩

/-! ## Claim C3 — the Pressed-Key Set invariant -/

/-- Replaying one more event is one `updatePressed` step. -/
theorem replayEvents_append (evs : List InputEvent) (ev : InputEvent)
    (init : Finset Nat) :
    replayEvents (evs ++ [ev]) init = updatePressed (replayEvents evs init) ev := by
  simp [replayEvents, List.foldl_append]

/-- Appending an event updates `lastPressRelease` exactly when the event
is a press or release of the tracked code. -/
theorem lastPressRelease_append (evs : List InputEvent) (ev : InputEvent) (c : Nat) :
    lastPressRelease (evs ++ [ev]) c =
      if (ev.kind == EvKind.key c) && (ev.value == 1 || ev.value == 0) then
        some ev.value
      else lastPressRelease evs c := by
  unfold lastPressRelease
  rw [List.filter_append]
  by_cases h : ((ev.kind == EvKind.key c) && (ev.value == 1 || ev.value == 0)) = true
  · simp [h, List.getLast?_concat]
  · simp [h]

/-- C3: replaying any sequence of key events from the empty set, a code is
in the Pressed-Key Set iff the most recent press/release event for that
code was a press; and a repeat event (`value = 2`) never changes the set. -/
theorem pressed_set_iff_last_event_is_press (events : List InputEvent) (c : Nat) :
    (c ∈ replayEvents events ∅ ↔ lastPressRelease events c = some 1) ∧
    (∀ (pressed : Finset Nat) (code : Nat),
      updatePressed pressed ⟨EvKind.key code, 2⟩ = pressed) := by
  constructor
  · induction events using List.reverseRecOn with
    | nil => simp [replayEvents, lastPressRelease]
    | append_singleton evs ev ih =>
        rw [replayEvents_append, lastPressRelease_append]
        obtain ⟨k, v⟩ := ev
        cases k with
        | other => simpa [updatePressed] using ih
        | key code =>
            by_cases hc : code = c
            · subst hc
              by_cases h1 : v = 1
              · subst h1; simp [updatePressed]
              · by_cases h0 : v = 0
                · subst h0; simp [updatePressed, Finset.not_mem_erase]
                · simpa [updatePressed, h0, h1] using ih
            · have hc' : c ≠ code := fun h => hc h.symm
              by_cases h1 : v = 1
              · subst h1
                simpa [updatePressed, hc, Finset.mem_insert, hc'] using ih
              · by_cases h0 : v = 0
                · subst h0
                  simpa [updatePressed, hc, Finset.mem_erase, hc'] using ih
                · simpa [updatePressed, hc, h0, h1] using ih
  · intro pressed code
    simp [updatePressed]

/-! ## Claim C6 — the matcher: key capability, first match, order -/

/-- A successful `List.find?` returns an element satisfying the predicate such that
every earlier element fails it. -/
theorem find?_first_match {α : Type} (p : α → Bool) :
    ∀ (l : List α) (a : α), l.find? p = some a →
      p a = true ∧ ∃ i, l.get? i = some a ∧
        ∀ j, j < i → ∀ b, l.get? j = some b → p b = false := by
  intro l
  induction l with
  | nil => intro a h; simp at h
  | cons x xs ih =>
      intro a h
      by_cases hx : p x = true
      · rw [List.find?_cons_of_pos _ hx] at h
        obtain rfl : x = a := by simpa using h
        exact ⟨hx, 0, rfl, fun j hj => absurd hj (Nat.not_lt_zero j)⟩
      · have hx' : p x = false := by simpa using hx
        rw [List.find?_cons_of_neg _ (by simp [hx'])] at h
        obtain ⟨hpa, i, hi, hfirst⟩ := ih a h
        refine ⟨hpa, i + 1, by simpa using hi, ?_⟩
        intro j hj b hb
        cases j with
        | zero =>
            obtain rfl : x = b := by simpa using hb
            exact hx'
        | succ j' =>
            exact hfirst j' (Nat.lt_of_succ_lt_succ hj) b (by simpa using hb)

/-- C6: `match_keyboard_config` rejects any device without key-event
capability; when it returns a configuration, that configuration matches
the device name case-insensitively and every earlier configuration in the
configured order does not; and when it returns nothing for a key-capable
device, no configuration matches. -/
theorem matcher_requires_key_and_first_match (device : DeviceInfo)
    (configs : List KeyboardConfig) :
    (device.supportsKey = false → match_keyboard_config device configs = none) ∧
    (∀ kb, match_keyboard_config device configs = some kb →
      nameMatches device.name kb = true ∧
      ∃ i, configs.get? i = some kb ∧
        ∀ j, j < i → ∀ kb', configs.get? j = some kb' →
          nameMatches device.name kb' = false) ∧
    (device.supportsKey = true → match_keyboard_config device configs = none →
      ∀ kb ∈ configs, nameMatches device.name kb = false) := by
  refine ⟨?_, ?_, ?_⟩
  · intro h
    simp [match_keyboard_config, h]
  · intro kb h
    unfold match_keyboard_config at h
    by_cases hk : device.supportsKey = false
    · simp [hk] at h
    · rw [if_neg hk] at h
      exact find?_first_match _ configs kb h
  · intro hk h
    unfold match_keyboard_config at h
    rw [if_neg (by simp [hk])] at h
    intro kb hmem
    simpa using List.find?_eq_none.mp h kb hmem

/-- Witness for `matcher_requires_key_and_first_match`: a device without
key capability is rejected even when its name matches, and a key-capable
device matching nothing yields no match for any configuration. -/
theorem matcher_requires_key_and_first_match_witness :
    match_keyboard_config ⟨"My Lofree Keyboard", false⟩ [⟨"Lofree", 1, "en"⟩] = none ∧
    (∀ kb ∈ ([⟨"CHERRY", 0, "de"⟩] : List KeyboardConfig),
      nameMatches "AAA" kb = false) :=
  ⟨(matcher_requires_key_and_first_match ⟨"My Lofree Keyboard", false⟩
      [⟨"Lofree", 1, "en"⟩]).1 rfl,
   (matcher_requires_key_and_first_match ⟨"AAA", true⟩
      [⟨"CHERRY", 0, "de"⟩]).2.2 rfl (by decide)⟩

/-! ## Monitor-step helper lemmas -/

/-- The function `readPhase` passes the cleanup-release set through unchanged. -/
theorem readPhase_released (l : Nat) (st : MState) (e : Env) (rel : Finset Nat)
    (o g : Nat) : (readPhase l st e rel o g).released = rel := by
  unfold readPhase
  split <;> split_ifs <;> rfl

/-- The function `readPhase` passes the open-attempt counter through unchanged. -/
theorem readPhase_opens (l : Nat) (st : MState) (e : Env) (rel : Finset Nat)
    (o g : Nat) : (readPhase l st e rel o g).opens = o := by
  unfold readPhase
  split <;> split_ifs <;> rfl

/-- The function `readPhase` passes the grab-attempt counter through unchanged. -/
theorem readPhase_grabs (l : Nat) (st : MState) (e : Env) (rel : Finset Nat)
    (o g : Nat) : (readPhase l st e rel o g).grabs = g := by
  unfold readPhase
  split <;> split_ifs <;> rfl

/-- On a non-shutdown iteration whose reopen guard fires, the released set
is exactly what `transitionCleanup` produced. -/
theorem monitorStep_released_of_guard (l : Nat) (st : MState) (e : Env)
    (hs : e.shutdown = false)
    (hg : (!st.deviceOpen || (e.grabMode != st.wasGrab)) = true) :
    (monitorStep l st e).released =
      (transitionCleanup st.deviceOpen st.wasGrab st.pressed).1 := by
  unfold monitorStep
  simp only [hs, Bool.false_eq_true, if_false, hg, if_true]
  split_ifs <;> simp [readPhase_released]

/-! ## Claim C2 — key-release cleanup on transitions and shutdown -/

/-- C2, counterexample: the claim says that on receipt of the shutdown
signal the monitor emits key-release events for exactly the Pressed-Key
Set. On the code, the shutdown check at the top of the loop breaks out
with no cleanup at all: with key 30 held, nothing is released. -/
theorem shutdown_skips_release_cleanup :
    (monitorStep 1 ⟨true, true, {30}, 0⟩
        ⟨true, true, true, true, Sum.inr [], none, []⟩).released ≠ ({30} : Finset Nat) ∧
    (monitorStep 1 ⟨true, true, {30}, 0⟩
        ⟨true, true, true, true, Sum.inr [], none, []⟩).control = Control.brk ∧
    MState.pressed ⟨true, true, {30}, 0⟩ = ({30} : Finset Nat) :=
  ⟨by decide, rfl, rfl⟩

/-- C2, amended: release cleanup happens exactly on a capture-mode
transition observed with a device open and the previous mode Grab: there
the emitted release set equals the Pressed-Key Set — never more, never
fewer — and the set is cleared before the device is reopened. On a
transition whose previous mode was Passive no releases are emitted, and
on shutdown the monitor breaks out with no cleanup and the set intact. -/
theorem release_cleanup_exact_on_grab_transition (l : Nat) (st : MState) (e : Env)
    (hs : e.shutdown = false) (hd : st.deviceOpen = true) (hw : st.wasGrab = true)
    (hm : e.grabMode ≠ st.wasGrab) :
    (monitorStep l st e).released = st.pressed ∧
    transitionCleanup st.deviceOpen st.wasGrab st.pressed = (st.pressed, ∅) ∧
    (∀ (st' : MState) (e' : Env), e'.shutdown = true →
      (monitorStep l st' e').released = ∅ ∧
      (monitorStep l st' e').control = Control.brk ∧
      (monitorStep l st' e').s = st') ∧
    (∀ (st' : MState) (e' : Env), st'.wasGrab = false →
      (monitorStep l st' e').released = ∅) := by
  have hclean : transitionCleanup st.deviceOpen st.wasGrab st.pressed =
      (st.pressed, ∅) := by
    rw [hd, hw]
    by_cases hp : st.pressed = ∅
    · simp [transitionCleanup, hp]
    · simp [transitionCleanup, Finset.nonempty_iff_ne_empty, hp]
  have hguard : (!st.deviceOpen || (e.grabMode != st.wasGrab)) = true := by
    simp [bne_iff_ne, hm]
  refine ⟨?_, hclean, ?_, ?_⟩
  · rw [monitorStep_released_of_guard l st e hs hguard, hclean]
  · intro st' e' hs'
    unfold monitorStep
    simp [hs']
  · intro st' e' hw'
    cases hs' : e'.shutdown with
    | true =>
        unfold monitorStep
        simp [hs']
    | false =>
        have hcl : (transitionCleanup st'.deviceOpen st'.wasGrab st'.pressed).1 = ∅ := by
          simp [transitionCleanup, hw']
        cases hg : (!st'.deviceOpen || (e'.grabMode != st'.wasGrab)) with
        | true => rw [monitorStep_released_of_guard l st' e' hs' hg, hcl]
        | false =>
            unfold monitorStep
            simp only [hs', Bool.false_eq_true, if_false, hg, if_true]
            exact readPhase_released l st' e' ∅ 0 0

/-- Witness for `release_cleanup_exact_on_grab_transition`: a grab→passive
transition with keys 30 and 56 held releases exactly those two keys. -/
theorem release_cleanup_exact_on_grab_transition_witness :
    (monitorStep 1 ⟨true, true, {30, 56}, 0⟩
        ⟨false, false, true, true, Sum.inr [], none, []⟩).released =
      ({30, 56} : Finset Nat) :=
  (release_cleanup_exact_on_grab_transition 1 ⟨true, true, {30, 56}, 0⟩
    ⟨false, false, true, true, Sum.inr [], none, []⟩ rfl rfl rfl
    (by decide)).1

/-! ## Claim C7 — classification of read failures -/

/-- C7: with a device open and no pending mode change, a read failing with
ENODEV (raw 19) breaks out of the monitor loop; EAGAIN (raw 11) retries
with the state (device included) untouched; any other error keeps the
loop running with the device closed and the pressed set intact; and any
later non-shutdown iteration that starts with the device closed attempts
exactly one reopen. -/
theorem read_error_classification (l : Nat) (st : MState) (e : Env)
    (hs : e.shutdown = false) (hd : st.deviceOpen = true)
    (hm : e.grabMode = st.wasGrab) :
    (e.read = Sum.inl (some 19) → (monitorStep l st e).control = Control.brk) ∧
    (e.read = Sum.inl (some 11) →
      (monitorStep l st e).control = Control.cont ∧ (monitorStep l st e).s = st) ∧
    (∀ errno : Option Nat, e.read = Sum.inl errno → errno ≠ some 19 →
      errno ≠ some 11 →
      (monitorStep l st e).control = Control.cont ∧
      (monitorStep l st e).s.deviceOpen = false ∧
      (monitorStep l st e).s.pressed = st.pressed) ∧
    (∀ (st' : MState) (e' : Env), st'.deviceOpen = false → e'.shutdown = false →
      (monitorStep l st' e').opens = 1) := by
  have hred : monitorStep l st e = readPhase l st e ∅ 0 0 := by
    unfold monitorStep
    simp [hs, hd, hm]
  refine ⟨?_, ?_, ?_, ?_⟩
  · intro h
    rw [hred]
    unfold readPhase
    simp [h]
  · intro h
    rw [hred]
    unfold readPhase
    simp [h]
  · intro errno h h19 h11
    rw [hred]
    unfold readPhase
    simp [h, h19, h11]
  · intro st' e' hd' hs'
    unfold monitorStep
    simp only [hs', Bool.false_eq_true, if_false, hd', Bool.not_false,
      Bool.true_or, if_true]
    split_ifs <;> simp [readPhase_opens]

/-- Witness for `read_error_classification`: ENODEV terminates, EAGAIN
retries in place, EIO (raw 5) closes the device but keeps the loop. -/
theorem read_error_classification_witness :
    (monitorStep 1 ⟨true, true, ∅, 0⟩
        ⟨false, true, true, true, Sum.inl (some 19), none, []⟩).control =
      Control.brk ∧
    (monitorStep 1 ⟨true, true, ∅, 0⟩
        ⟨false, true, true, true, Sum.inl (some 5), none, []⟩).control =
      Control.cont :=
  ⟨(read_error_classification 1 ⟨true, true, ∅, 0⟩
      ⟨false, true, true, true, Sum.inl (some 19), none, []⟩ rfl rfl rfl).1 rfl,
   ((read_error_classification 1 ⟨true, true, ∅, 0⟩
      ⟨false, true, true, true, Sum.inl (some 5), none, []⟩ rfl rfl rfl).2.2.1
      (some 5) rfl (by decide) (by decide)).1⟩

/-! ## Claim C9 — virtual-device creation failure aborts the monitor -/

/-- C9: if `create_virtual_keyboard` fails, `monitor_keyboard` returns at
once: over every environment trace — in particular with the global mode
Passive throughout — it attempts no device open and no grab and never
enters the loop; and since the dead monitor's registry entry is never
removed by its own return, `spawn_keyboard_monitor` on a registered path
spawns nothing, so the monitor is not retried. -/
theorem vk_creation_failure_aborts_monitor (vkOk grabAtStart : Bool)
    (layoutIndex initialLayout : Nat) (envs : List Env) (h : vkOk = false) :
    (monitor_keyboard vkOk grabAtStart layoutIndex initialLayout envs).opens = 0 ∧
    (monitor_keyboard vkOk grabAtStart layoutIndex initialLayout envs).grabs = 0 ∧
    (monitor_keyboard vkOk grabAtStart layoutIndex initialLayout envs).finalState =
      none ∧
    (∀ (registry : Finset Nat) (path : Nat), path ∈ registry →
      spawn_keyboard_monitor registry path = (registry, false)) := by
  subst h
  refine ⟨rfl, rfl, rfl, ?_⟩
  intro registry path hp
  simp [spawn_keyboard_monitor, hp]

/-- Witness for `vk_creation_failure_aborts_monitor`: passive mode, one
iteration offered, registry already holding path 7. -/
theorem vk_creation_failure_aborts_monitor_witness :
    (monitor_keyboard false false 1 0
        [⟨false, false, true, true, Sum.inr [⟨EvKind.key 30, 1⟩], some true, []⟩]).opens
      = 0 ∧
    spawn_keyboard_monitor {7} 7 = ({7}, false) :=
  ⟨(vk_creation_failure_aborts_monitor false false 1 0
      [⟨false, false, true, true, Sum.inr [⟨EvKind.key 30, 1⟩], some true, []⟩]
      rfl).1,
   (vk_creation_failure_aborts_monitor false false 1 0 [] rfl).2.2.2 {7} 7
      (by decide)⟩

/-! ## Claim C10 — set_mode is case-insensitive -/

/-- C10: any string lowercasing to `"passive"` (resp. `"grab"`) makes
`set_mode` return `true` and store the corresponding mode. -/
theorem set_mode_lowercases_input (m : String) (g : Bool) :
    (strToLower m = "passive" → set_mode m g = (true, false)) ∧
    (strToLower m = "grab" → set_mode m g = (true, true)) := by
  constructor
  · intro h; simp [set_mode, h]
  · intro h
    have h1 : strToLower m ≠ "passive" := by rw [h]; decide
    simp [set_mode, h, h1]

/-- Witness for `set_mode_lowercases_input` at `"PASSIVE"` and `"Grab"`. -/
theorem set_mode_lowercases_input_witness :
    set_mode "PASSIVE" true = (true, false) ∧ set_mode "Grab" false = (true, true) :=
  ⟨(set_mode_lowercases_input "PASSIVE" true).1 (by decide),
   (set_mode_lowercases_input "Grab" false).2 (by decide)⟩

end KbDaemon
